import Mathlib

/-!
Verification of the portainer CLI tool (file src/portainer/__init__.py).

The program is a single-shot pipeline: resolve a credentials YAML file,
look up a named profile, fetch a JWT auth token over HTTP, write a
temporary docker client configuration directory, spawn the docker command
pointed at the portainer endpoint URL, and exit with the exit code of the
child process.

The embedding below is a shallow one: the external world (filesystem
existence, parsed YAML contents, environment variables, the single HTTP
response, the temporary-directory name and the result of spawning the
child) is packaged in a World structure, and the function main computes,
from the parsed options and the world, a RunTrace recording the outcome,
the logged messages, the files written inside the temporary directory,
the argument list handed to the child process and the state of the
temporary directory after the run.  The Python with-statement on
tempfile.TemporaryDirectory is modelled by its try/finally semantics:
every branch that is reached after the directory is created records that
the directory is removed afterwards, including the branch in which
spawning the child raises an exception.
-/

namespace Portainer

/-- A parsed credential record, the value of one top-level key of the
credentials YAML file (fields read at lines 101-105 of the source).
The fields host, username and password are accessed unconditionally;
endpoint_id and ca_certificate are read with dict.get and are optional. -/
structure Cred where
  host : String
  username : String
  password : String
  endpoint_id : Option String
  ca_certificate : Option String
  deriving Repr, DecidableEq

/-- The parsed credentials file: a YAML top-level mapping from profile
name to record.  A key mapped to none models a YAML null value (an empty
entry), which Python yaml.load turns into None. -/
abbrev CredStore := List (String × Option Cred)

/-- Python dict.get(k): returns None both when the key is absent and when
the key is present with value None (models all_credentials.get at line 95). -/
def pyDictGet (d : CredStore) (k : String) : Option Cred :=
  match d.lookup k with
  | none => none
  | some v => v

/-- The single HTTP response the requests.post call at lines 150-152 would
produce: ok is the success predicate, status_code and text are the
diagnostics, jwt models r.json().get of the jwt key. -/
structure AuthResponse where
  ok : Bool
  status_code : Nat
  text : String
  jwt : Option String
  deriving Repr, DecidableEq

/-- get_portainer_token (lines 148-160): on a non-success response it
returns None; on success it returns the jwt field of the JSON body, which
itself may be absent.  Only the returned value is modelled here; the
error logging inside the function names no data a claim inspects. -/
def get_portainer_token (r : AuthResponse) : Option String :=
  if r.ok then r.jwt else none

/-- A minimal JSON value type, enough to state what json.dump writes at
line 120. -/
inductive Json where
  | str (s : String) : Json
  | obj (fields : List (String × Json)) : Json
  deriving Repr

/-- The JSON object written to config/config.json at line 120:
an object with key HttpHeaders whose value maps Authorization to the
string Bearer followed by the token. -/
def configJson (token : String) : Json :=
  Json.obj [("HttpHeaders", Json.obj [("Authorization", Json.str ("Bearer " ++ token))])]

/-- The command-line options exactly as docopt would present them to main:
the docker command already carries its docopt default. -/
structure Opts where
  credentials : Option String
  credentialsName : Option String
  dockerCmd : String
  arguments : List String
  deriving Repr, DecidableEq

/-- The raw command line before docopt applies defaults: each flag is
either given or absent. -/
structure RawCli where
  credentials : Option String
  credentialsName : Option String
  dockerCmd : Option String
  arguments : List String
  deriving Repr, DecidableEq

/-- docopt option processing: the docstring declares
    --docker-cmd=COMMAND  [default: docker]
(line 17), so an absent --docker-cmd flag yields the literal string
docker; the other options have no default and pass through. -/
def docoptParse (raw : RawCli) : Opts :=
  { credentials := raw.credentials
    credentialsName := raw.credentialsName
    dockerCmd := raw.dockerCmd.getD "docker"
    arguments := raw.arguments }

/-- The external world of one run: filesystem, environment, the auth
response the portainer host would give, the temporary directory name
chosen by tempfile, and the result of spawning a child command
(Except.error models the exception raised when the command cannot be
spawned, Except.ok its exit code). -/
structure World where
  cwd : String
  home : String
  isFile : String → Bool
  parsedYaml : String → CredStore
  envCredName : Option String
  authResponse : AuthResponse
  tmpdir : String
  spawn : List String → Except Unit Int

/-- The default credential file search path (lines 75-79): the current
directory, the home directory, then /etc. -/
def defaultCredentialFiles (w : World) : List String :=
  [w.cwd ++ "/portainer-credentials.yaml",
   w.home ++ "/.portainer-credentials.yaml",
   "/etc/portainer-credentials.yaml"]

/-- Lines 72-79: if --credentials is given it REPLACES the default search
path (the list of candidates is just the override); otherwise the three
default locations are the candidates. -/
def credential_files (opts : Opts) (w : World) : List String :=
  match opts.credentials with
  | some p => [p]
  | none => defaultCredentialFiles w

/-- Line 81: the candidates that exist on disk, in order. -/
def valid_credential_files (opts : Opts) (w : World) : List String :=
  (credential_files opts w).filter w.isFile

/-- Lines 82-89: the file actually used is the first existing candidate,
if any. -/
def selectedCredentialsFile (opts : Opts) (w : World) : Option String :=
  (valid_credential_files opts w).head?

/-- Lines 92-94: profile name resolution, explicit flag first, then the
PORTAINER_CREDENTIALS_NAME environment variable, then the literal
default. -/
def credentials_name (opts : Opts) (w : World) : String :=
  match opts.credentialsName with
  | some n => n
  | none =>
    match w.envCredName with
    | some n => n
    | none => "default"

/-- The remote docker URL built at line 125. -/
def portainerUrl (host endpoint_id : String) : String :=
  "tcp://" ++ host ++ ":443/api/endpoints/" ++ endpoint_id ++ "/docker/"

/-- Lines 122-127: the fixed prefix of the child command line. -/
def baseDockerArgs (docker_cmd config_dir host endpoint_id : String) : List String :=
  [docker_cmd, "--config", config_dir, "--host", portainerUrl host endpoint_id, "--tls"]

/-- Lines 130-134: the TLS-verification flags, appended only when a CA
certificate is present in the credential record. -/
def tlsArgs (ca : Option String) (cacert_path : String) : List String :=
  match ca with
  | some _ => ["--tlsverify", "--tlscacert", cacert_path]
  | none => []

/-- Lines 122-140: the full child command line for a given resolved
credential record: fixed prefix, optional TLS-verify flags, then the
passthrough arguments.  The endpoint id defaults to the string 1
(credentials.get at line 104) and the config directory and CA
certificate path live inside the temporary directory. -/
def dockerArgsFor (opts : Opts) (w : World) (cred : Cred) : List String :=
  baseDockerArgs opts.dockerCmd (w.tmpdir ++ "/config") cred.host (cred.endpoint_id.getD "1")
    ++ tlsArgs cred.ca_certificate (w.tmpdir ++ "/cacert.pem")
    ++ opts.arguments

/-- How a run of main terminates: sys.exit with a fatal code, sys.exit
with the exit code of the child, or an uncaught exception (the spawn
failure case). -/
inductive Outcome where
  | fatal (code : Nat) : Outcome
  | childExit (code : Int) : Outcome
  | crashed : Outcome
  deriving Repr, DecidableEq

/-- Everything observable about one run of main. -/
structure RunTrace where
  outcome : Outcome
  errors : List String
  warnings : List String
  httpCalled : Bool
  credentialsFileUsed : Option String
  configFile : Option Json
  cacertFile : Option String
  dockerArgs : Option (List String)
  childExitCode : Option Int
  tmpdirCreated : Bool
  tmpdirExistsAfter : Bool

/-- The trace produced when the requested profile is not found in the
selected credentials file (lines 96-98). -/
def profileNotFoundTrace (name file : String) : RunTrace :=
  { outcome := .fatal 1
    errors := ["Credentials \"" ++ name ++ "\" not found in \"" ++ file ++ "\""]
    warnings := []
    httpCalled := false
    credentialsFileUsed := some file
    configFile := none
    cacertFile := none
    dockerArgs := none
    childExitCode := none
    tmpdirCreated := false
    tmpdirExistsAfter := false }

/-- The warning issued at line 136 when no CA certificate is supplied. -/
def caWarnings (ca : Option String) : List String :=
  match ca with
  | some _ => []
  | none => ["No CA root certificate supplied. TLS verification is disabled."]

/-- The function main (lines 66-145), as a pure function from options and
world to a run trace.  Branches in order: no credentials file found
(lines 82-86), profile not found (lines 96-98), no auth token (lines
110-112), then the temporary-directory block (lines 115-142) ending
either in an exception while spawning the child (the with-statement still
removes the directory) or in the child running to completion, after which
the parent exits with the exit code of the child (line 145). -/
def main (opts : Opts) (w : World) : RunTrace :=
  match selectedCredentialsFile opts w with
  | none =>
    { outcome := .fatal 1
      errors := "Could not find credentials file. Tried:" ::
        (credential_files opts w).map (fun p => "  - " ++ p)
      warnings := []
      httpCalled := false
      credentialsFileUsed := none
      configFile := none
      cacertFile := none
      dockerArgs := none
      childExitCode := none
      tmpdirCreated := false
      tmpdirExistsAfter := false }
  | some credentials_file =>
    match pyDictGet (w.parsedYaml credentials_file) (credentials_name opts w) with
    | none => profileNotFoundTrace (credentials_name opts w) credentials_file
    | some credentials =>
      match get_portainer_token w.authResponse with
      | none =>
        { outcome := .fatal 1
          errors := ["Could not retrieve auth token"]
          warnings := []
          httpCalled := true
          credentialsFileUsed := some credentials_file
          configFile := none
          cacertFile := none
          dockerArgs := none
          childExitCode := none
          tmpdirCreated := false
          tmpdirExistsAfter := false }
      | some token =>
        match w.spawn (dockerArgsFor opts w credentials) with
        | .error _ =>
          { outcome := .crashed
            errors := []
            warnings := caWarnings credentials.ca_certificate
            httpCalled := true
            credentialsFileUsed := some credentials_file
            configFile := some (configJson token)
            cacertFile := credentials.ca_certificate
            dockerArgs := some (dockerArgsFor opts w credentials)
            childExitCode := none
            tmpdirCreated := true
            tmpdirExistsAfter := false }
        | .ok code =>
          { outcome := .childExit code
            errors := []
            warnings := caWarnings credentials.ca_certificate
            httpCalled := true
            credentialsFileUsed := some credentials_file
            configFile := some (configJson token)
            cacertFile := credentials.ca_certificate
            dockerArgs := some (dockerArgsFor opts w credentials)
            childExitCode := some code
            tmpdirCreated := true
            tmpdirExistsAfter := false }

/-- Modelled from the spec wording of claim C2 only, for comparison with
the selection the code performs: candidates are the explicit override
path, when given, FOLLOWED BY the three default locations, and the first
existing candidate is selected. -/
def specCredentialCandidates (opts : Opts) (w : World) : List String :=
  (match opts.credentials with
   | some p => [p]
   | none => []) ++ defaultCredentialFiles w

/-- Modelled from the spec wording of claim C2 only: the first existing
candidate among override-then-defaults. -/
def specSelectedCredentialsFile (opts : Opts) (w : World) : Option String :=
  ((specCredentialCandidates opts w).filter w.isFile).head?

/-! Concrete instances used to exercise the theorems on explicit inputs. -/

/-- A credential record with an explicit endpoint id and no CA certificate. -/
def cred1 : Cred :=
  { host := "h", username := "u", password := "p"
    endpoint_id := some "7", ca_certificate := none }

/-- A credential record carrying a CA certificate and no explicit endpoint id. -/
def cred2 : Cred :=
  { host := "h", username := "u", password := "p"
    endpoint_id := none, ca_certificate := some "PEMDATA" }

/-- A successful auth response carrying a jwt. -/
def resp200 : AuthResponse :=
  { ok := true, status_code := 200, text := "", jwt := some "tok" }

/-- A rejected auth response. -/
def resp401 : AuthResponse :=
  { ok := false, status_code := 401, text := "denied", jwt := none }

/-- A successful auth response whose JSON body lacks the jwt field. -/
def respNoJwt : AuthResponse :=
  { ok := true, status_code := 200, text := "{}", jwt := none }

/-- A world in which only the explicit file /creds.yaml exists, holding
the default profile cred1, auth succeeds and the child exits with 0. -/
def wBase : World :=
  { cwd := "/cwd", home := "/home/u"
    isFile := fun p => p == "/creds.yaml"
    parsedYaml := fun _ => [("default", some cred1)]
    envCredName := none
    authResponse := resp200
    tmpdir := "/tmp/portainer-x"
    spawn := fun _ => .ok 0 }

/-- Options pointing at /creds.yaml with passthrough arguments ps -a. -/
def opts1 : Opts :=
  { credentials := some "/creds.yaml", credentialsName := none
    dockerCmd := "docker", arguments := ["ps", "-a"] }

/-! Helper lemmas shared by several claims. -/

/-- On a run that resolves a credentials file, finds the profile and
obtains a token, the trace records the launch data independently of
whether the spawn succeeds. -/
theorem main_launch (opts : Opts) (w : World) (f : String) (cred : Cred) (T : String)
    (hf : selectedCredentialsFile opts w = some f)
    (hc : pyDictGet (w.parsedYaml f) (credentials_name opts w) = some cred)
    (ht : get_portainer_token w.authResponse = some T) :
    (main opts w).dockerArgs = some (dockerArgsFor opts w cred) ∧
    (main opts w).configFile = some (configJson T) ∧
    (main opts w).cacertFile = cred.ca_certificate ∧
    (main opts w).warnings = caWarnings cred.ca_certificate ∧
    (main opts w).tmpdirCreated = true ∧
    (main opts w).credentialsFileUsed = some f := by
  unfold main
  rw [hf]
  simp only [hc, ht]
  rcases hs : w.spawn (dockerArgsFor opts w cred) with e | code <;> simp

/-- The child command line always starts with the configured docker
command. -/
theorem main_dockerArgs_head (opts : Opts) (w : World) (args : List String)
    (h : (main opts w).dockerArgs = some args) :
    args.head? = some opts.dockerCmd := by
  unfold main at h
  rcases hf : selectedCredentialsFile opts w with _ | f <;> rw [hf] at h
  · simp at h
  · rcases hc : pyDictGet (w.parsedYaml f) (credentials_name opts w) with _ | cred <;>
      simp only [hc] at h
    · simp [profileNotFoundTrace] at h
    · rcases ht : get_portainer_token w.authResponse with _ | T <;> simp only [ht] at h
      · simp at h
      · rcases hs : w.spawn (dockerArgsFor opts w cred) with e | code <;>
          simp only [hs] at h <;>
          { simp only [Option.some.injEq] at h
            subst h
            simp [dockerArgsFor, baseDockerArgs] }

/-- The credentials file recorded as used is always the first existing
candidate of the search. -/
theorem main_credentialsFileUsed (opts : Opts) (w : World) :
    (main opts w).credentialsFileUsed = selectedCredentialsFile opts w := by
  unfold main
  rcases hf : selectedCredentialsFile opts w with _ | f
  · rfl
  · rcases hc : pyDictGet (w.parsedYaml f) (credentials_name opts w) with _ | cred <;>
      simp only [hc] <;> try rfl
    rcases ht : get_portainer_token w.authResponse with _ | T <;> simp only [ht] <;> try rfl
    rcases hs : w.spawn (dockerArgsFor opts w cred) with e | code <;> simp only [hs] <;> try rfl

/-! Claim theorems. -/

/-- C1: for every run that reaches the launch step with resolved
credential record cred, token T, configured docker command and
passthrough arguments, the child command line is exactly the docker
command, then the config flag with the config directory, then the host
flag with the tcp endpoint URL, then the tls flag, followed by the
TLS-verify flags iff a CA certificate was supplied, followed by the
passthrough arguments in order. -/
theorem docker_command_line_exact (opts : Opts) (w : World) (f : String) (cred : Cred)
    (T : String)
    (hf : selectedCredentialsFile opts w = some f)
    (hc : pyDictGet (w.parsedYaml f) (credentials_name opts w) = some cred)
    (ht : get_portainer_token w.authResponse = some T) :
    (main opts w).dockerArgs = some
      ([opts.dockerCmd, "--config", w.tmpdir ++ "/config", "--host",
        "tcp://" ++ cred.host ++ ":443/api/endpoints/" ++ cred.endpoint_id.getD "1" ++
          "/docker/", "--tls"]
       ++ (match cred.ca_certificate with
           | some _ => ["--tlsverify", "--tlscacert", w.tmpdir ++ "/cacert.pem"]
           | none => ([] : List String))
       ++ opts.arguments) := by
  have h := (main_launch opts w f cred T hf hc ht).1
  rw [h]
  cases hca : cred.ca_certificate <;>
    simp [dockerArgsFor, baseDockerArgs, portainerUrl, tlsArgs, hca]

/-- Witness for C1 at a concrete run. -/
theorem docker_command_line_exact_witness :
    (main opts1 wBase).dockerArgs =
      some ["docker", "--config", "/tmp/portainer-x/config", "--host",
            "tcp://h:443/api/endpoints/7/docker/", "--tls", "ps", "-a"] := by
  have h := docker_command_line_exact opts1 wBase "/creds.yaml" cred1 "tok" rfl rfl rfl
  simpa using h

/-- C3: when no candidate credentials file exists, the run exits with
code 1 after logging every attempted path, and neither the auth HTTP
request nor the child process occurs. -/
theorem no_credentials_file_fatal (opts : Opts) (w : World)
    (h : valid_credential_files opts w = []) :
    (main opts w).outcome = .fatal 1 ∧
    (∀ p ∈ credential_files opts w, ("  - " ++ p) ∈ (main opts w).errors) ∧
    (main opts w).httpCalled = false ∧
    (main opts w).dockerArgs = none := by
  have hsel : selectedCredentialsFile opts w = none := by
    simp [selectedCredentialsFile, h]
  unfold main
  rw [hsel]
  refine ⟨rfl, ?_, rfl, rfl⟩
  intro p hp
  simp only [List.mem_cons]
  exact Or.inr (List.mem_map_of_mem _ hp)

/-- A world in which no file exists at all. -/
def wNone : World := { wBase with isFile := fun _ => false }

/-- Options giving no explicit credentials path. -/
def optsNoCred : Opts :=
  { credentials := none, credentialsName := none, dockerCmd := "docker", arguments := [] }

/-- Witness for C3 at a concrete run: all three default paths are logged. -/
theorem no_credentials_file_fatal_witness :
    (main optsNoCred wNone).outcome = .fatal 1 ∧
    ("  - /cwd/portainer-credentials.yaml") ∈ (main optsNoCred wNone).errors ∧
    ("  - /home/u/.portainer-credentials.yaml") ∈ (main optsNoCred wNone).errors ∧
    ("  - /etc/portainer-credentials.yaml") ∈ (main optsNoCred wNone).errors := by
  have h := no_credentials_file_fatal optsNoCred wNone rfl
  refine ⟨h.1, ?_, ?_, ?_⟩ <;>
    { apply h.2.1
      simp [credential_files, defaultCredentialFiles, optsNoCred, wNone, wBase] }

/-- C4: token retrieval returns the absence sentinel (not an exception)
both on a non-success HTTP status and when a success response lacks the
jwt field; in either case the run exits with code 1 and no child
process is spawned. -/
theorem token_absent_fatal :
    (∀ r : AuthResponse, r.ok = false ∨ r.jwt = none → get_portainer_token r = none) ∧
    (∀ (opts : Opts) (w : World) (f : String) (cred : Cred),
      selectedCredentialsFile opts w = some f →
      pyDictGet (w.parsedYaml f) (credentials_name opts w) = some cred →
      get_portainer_token w.authResponse = none →
      (main opts w).outcome = .fatal 1 ∧ (main opts w).dockerArgs = none ∧
        (main opts w).childExitCode = none) := by
  constructor
  · intro r hr
    rcases hr with h | h <;> simp [get_portainer_token, h]
  · intro opts w f cred hf hc ht
    unfold main
    rw [hf]
    simp [hc, ht]

/-- A world whose auth request is rejected with status 401. -/
def w401 : World := { wBase with authResponse := resp401 }

/-- Witness for C4: the 401 response and the jwt-less success response
both yield the sentinel, and the 401 run exits fatally with no child. -/
theorem token_absent_fatal_witness :
    get_portainer_token resp401 = none ∧
    get_portainer_token respNoJwt = none ∧
    (main opts1 w401).outcome = .fatal 1 ∧ (main opts1 w401).dockerArgs = none := by
  have h1 := token_absent_fatal.1 resp401 (Or.inl rfl)
  have h2 := token_absent_fatal.1 respNoJwt (Or.inr rfl)
  have h3 := token_absent_fatal.2 opts1 w401 "/creds.yaml" cred1 rfl rfl rfl
  exact ⟨h1, h2, h3.1, h3.2.1⟩

/-- C5: for every token T obtained from authentication, the generated
config file is exactly the JSON object mapping HttpHeaders to an object
mapping Authorization to the string Bearer followed by T verbatim. -/
theorem config_json_exact (opts : Opts) (w : World) (f : String) (cred : Cred) (T : String)
    (hf : selectedCredentialsFile opts w = some f)
    (hc : pyDictGet (w.parsedYaml f) (credentials_name opts w) = some cred)
    (ht : get_portainer_token w.authResponse = some T) :
    (main opts w).configFile =
      some (Json.obj [("HttpHeaders",
        Json.obj [("Authorization", Json.str ("Bearer " ++ T))])]) := by
  have h := (main_launch opts w f cred T hf hc ht).2.1
  simpa [configJson] using h

/-- Witness for C5 at a concrete run. -/
theorem config_json_exact_witness :
    (main opts1 wBase).configFile =
      some (Json.obj [("HttpHeaders",
        Json.obj [("Authorization", Json.str "Bearer tok")])]) := by
  have h := config_json_exact opts1 wBase "/creds.yaml" cred1 "tok" rfl rfl rfl
  simpa using h

/-- C7: whenever the temporary launch-config directory is created, it is
removed on every exit path, so after the run it no longer exists (the
with-statement on tempfile.TemporaryDirectory gives try/finally
semantics, covering success, child failure and the exception raised when
the child cannot be spawned). -/
theorem tmpdir_removed (opts : Opts) (w : World)
    (h : (main opts w).tmpdirCreated = true) :
    (main opts w).tmpdirExistsAfter = false := by
  unfold main
  rcases hf : selectedCredentialsFile opts w with _ | f
  · rfl
  · rcases hc : pyDictGet (w.parsedYaml f) (credentials_name opts w) with _ | cred <;>
      simp only [hc] <;> try rfl
    rcases ht : get_portainer_token w.authResponse with _ | T <;> simp only [ht] <;> try rfl
    rcases hs : w.spawn (dockerArgsFor opts w cred) with e | code <;> simp only [hs] <;> try rfl

/-- A world in which spawning the child raises an exception. -/
def wSpawnFail : World := { wBase with spawn := fun _ => .error () }

/-- Witness for C7 on the exception exit path: the directory was created
and is gone afterwards even though the spawn raised. -/
theorem tmpdir_removed_witness :
    (main opts1 wSpawnFail).tmpdirCreated = true ∧
    (main opts1 wSpawnFail).tmpdirExistsAfter = false :=
  ⟨rfl, tmpdir_removed opts1 wSpawnFail rfl⟩

/-- C8: when the child process is successfully spawned with the built
command line, the parent terminates with exactly the exit code of the
child. -/
theorem child_exit_code_propagated (opts : Opts) (w : World) (args : List String) (c : Int)
    (hargs : (main opts w).dockerArgs = some args)
    (hok : w.spawn args = .ok c) :
    (main opts w).outcome = .childExit c ∧ (main opts w).childExitCode = some c := by
  unfold main at hargs ⊢
  rcases hf : selectedCredentialsFile opts w with _ | f <;> rw [hf] at hargs
  · simp at hargs
  · rcases hc : pyDictGet (w.parsedYaml f) (credentials_name opts w) with _ | cred <;>
      simp only [hc] at hargs ⊢
    · simp [profileNotFoundTrace] at hargs
    · rcases ht : get_portainer_token w.authResponse with _ | T <;>
        simp only [ht] at hargs ⊢
      · simp at hargs
      · rcases hs : w.spawn (dockerArgsFor opts w cred) with e | code <;>
          simp only [hs] at hargs ⊢ <;>
          rw [Option.some.injEq] at hargs <;> subst hargs
        · rw [hok] at hs
          exact absurd hs (by simp)
        · rw [hok] at hs
          injection hs with h2
          subst h2
          exact ⟨rfl, rfl⟩

/-- A world whose child process exits with code 3. -/
def wExit3 : World := { wBase with spawn := fun _ => .ok 3 }

/-- Witness for C8 at a concrete run whose child exits with code 3. -/
theorem child_exit_code_propagated_witness :
    (main opts1 wExit3).outcome = .childExit 3 ∧
    (main opts1 wExit3).childExitCode = some 3 :=
  child_exit_code_propagated opts1 wExit3
    ["docker", "--config", "/tmp/portainer-x/config", "--host",
     "tcp://h:443/api/endpoints/7/docker/", "--tls", "ps", "-a"] 3 rfl rfl

/-- C9: a profile present as a top-level key but with a null value fails
exactly as an absent profile does: the Python dict.get returns None for
both, so the run logs that the named profile was not found in the named
file and exits with code 1, producing the very same trace as the
absent-key case, with no HTTP request and no child process. -/
theorem null_profile_as_absent :
    (∀ (opts : Opts) (w : World) (f : String),
      selectedCredentialsFile opts w = some f →
      (w.parsedYaml f).lookup (credentials_name opts w) = some none →
      pyDictGet (w.parsedYaml f) (credentials_name opts w) = none ∧
      main opts w = profileNotFoundTrace (credentials_name opts w) f ∧
      (main opts w).outcome = .fatal 1 ∧
      ("Credentials \"" ++ credentials_name opts w ++ "\" not found in \"" ++ f ++ "\"")
        ∈ (main opts w).errors ∧
      (main opts w).httpCalled = false ∧ (main opts w).dockerArgs = none) ∧
    (∀ (opts : Opts) (w : World) (f : String),
      selectedCredentialsFile opts w = some f →
      (w.parsedYaml f).lookup (credentials_name opts w) = none →
      main opts w = profileNotFoundTrace (credentials_name opts w) f) := by
  constructor
  · intro opts w f hf hl
    have hg : pyDictGet (w.parsedYaml f) (credentials_name opts w) = none := by
      simp [pyDictGet, hl]
    have hm : main opts w = profileNotFoundTrace (credentials_name opts w) f := by
      unfold main
      rw [hf]
      simp [hg]
    refine ⟨hg, hm, ?_, ?_, ?_, ?_⟩ <;> rw [hm] <;> simp [profileNotFoundTrace]
  · intro opts w f hf hl
    have hg : pyDictGet (w.parsedYaml f) (credentials_name opts w) = none := by
      simp [pyDictGet, hl]
    unfold main
    rw [hf]
    simp [hg]

/-- A world whose credentials file holds the default profile as an
explicit key with a null value. -/
def wNullProfile : World := { wBase with parsedYaml := fun _ => [("default", none)] }

/-- Witness for C9 at a concrete run with a null-valued profile entry. -/
theorem null_profile_as_absent_witness :
    (main opts1 wNullProfile).outcome = .fatal 1 ∧
    ("Credentials \"default\" not found in \"/creds.yaml\"")
      ∈ (main opts1 wNullProfile).errors ∧
    (main opts1 wNullProfile).httpCalled = false := by
  have h := null_profile_as_absent.1 opts1 wNullProfile "/creds.yaml" rfl rfl
  exact ⟨h.2.2.1, h.2.2.2.1, h.2.2.2.2.1⟩

/-- C10: when the docker-cmd option is not given, docopt substitutes the
literal default docker, and every child command line the run builds
starts with the literal string docker. -/
theorem default_docker_cmd (raw : RawCli) (w : World)
    (h : raw.dockerCmd = none) :
    (docoptParse raw).dockerCmd = "docker" ∧
    ∀ args, (main (docoptParse raw) w).dockerArgs = some args →
      args.head? = some "docker" := by
  have hd : (docoptParse raw).dockerCmd = "docker" := by
    simp [docoptParse, h]
  refine ⟨hd, ?_⟩
  intro args hargs
  have h2 := main_dockerArgs_head (docoptParse raw) w args hargs
  rwa [hd] at h2

/-- The raw command line of the C10 witness: no docker-cmd flag given. -/
def raw1 : RawCli :=
  { credentials := some "/creds.yaml", credentialsName := none
    dockerCmd := none, arguments := ["ps", "-a"] }

/-- Witness for C10 at a concrete run. -/
theorem default_docker_cmd_witness :
    (docoptParse raw1).dockerCmd = "docker" ∧
    (["docker", "--config", "/tmp/portainer-x/config", "--host",
      "tcp://h:443/api/endpoints/7/docker/", "--tls", "ps", "-a"] : List String).head? =
      some "docker" :=
  ⟨(default_docker_cmd raw1 wBase rfl).1,
   (default_docker_cmd raw1 wBase rfl).2
     ["docker", "--config", "/tmp/portainer-x/config", "--host",
      "tcp://h:443/api/endpoints/7/docker/", "--tls", "ps", "-a"] rfl⟩

/-- Options giving an explicit credentials override path that does not
exist in the worlds below. -/
def optsOverride : Opts :=
  { credentials := some "/override.yaml", credentialsName := none
    dockerCmd := "docker", arguments := [] }

/-- A world in which only the current-directory default credentials file
exists. -/
def wDefaultOnly : World :=
  { wBase with isFile := fun p => p == "/cwd/portainer-credentials.yaml" }

/-- C2 counterexample: the claim says that with a non-existing explicit
override path and an existing current-directory default, the default is
selected; the code instead replaces the whole search path with the
override, selects no file and exits fatally with code 1.  The selection
the claim describes is specSelectedCredentialsFile, modelled from the
spec wording; the code computes main. -/
theorem credentials_search_counterexample :
    specSelectedCredentialsFile optsOverride wDefaultOnly =
      some "/cwd/portainer-credentials.yaml" ∧
    (main optsOverride wDefaultOnly).credentialsFileUsed = none ∧
    (main optsOverride wDefaultOnly).outcome = .fatal 1 := by
  refine ⟨rfl, rfl, rfl⟩

/-- C2 (amended): when the explicit override path is given it replaces
the default search path entirely, so it is the only candidate: the run
uses it when it exists and fails when it does not, regardless of the
default paths; only when no override is given are the three default
locations checked in order with the first existing one selected. -/
theorem credentials_search_amended (opts : Opts) (w : World) :
    (∀ p, opts.credentials = some p →
      (main opts w).credentialsFileUsed = (if w.isFile p then some p else none)) ∧
    (opts.credentials = none →
      (main opts w).credentialsFileUsed =
        ((defaultCredentialFiles w).filter w.isFile).head?) := by
  constructor
  · intro p hp
    rw [main_credentialsFileUsed]
    simp only [selectedCredentialsFile, valid_credential_files, credential_files, hp]
    by_cases hip : w.isFile p <;> simp [hip]
  · intro hp
    rw [main_credentialsFileUsed]
    simp only [selectedCredentialsFile, valid_credential_files, credential_files, hp]

/-- Witness for the amended C2, at concrete runs exercising both the
replaced-search-path case and the default-search case. -/
theorem credentials_search_amended_witness :
    (main optsOverride wDefaultOnly).credentialsFileUsed = none ∧
    (main optsNoCred wDefaultOnly).credentialsFileUsed =
      some "/cwd/portainer-credentials.yaml" := by
  have h1 := (credentials_search_amended optsOverride wDefaultOnly).1 "/override.yaml" rfl
  have h2 := (credentials_search_amended optsNoCred wDefaultOnly).2 rfl
  constructor
  · rw [h1]; rfl
  · rw [h2]; rfl

/-- Options whose passthrough arguments contain the literal --tlsverify. -/
def optsTlsArg : Opts :=
  { credentials := some "/creds.yaml", credentialsName := none
    dockerCmd := "docker", arguments := ["--tlsverify"] }

/-- C6 counterexample: the claim says that without a ca_certificate the
child command line never contains --tlsverify; in a run whose record has
no CA certificate but whose passthrough arguments include --tlsverify,
the flag does appear on the child command line (passthrough arguments
are forwarded verbatim). -/
theorem tls_flags_counterexample :
    (main optsTlsArg wBase).cacertFile = none ∧
    "--tlsverify" ∈ ((main optsTlsArg wBase).dockerArgs.getD []) := by
  constructor
  · rfl
  · have h : (main optsTlsArg wBase).dockerArgs =
        some ["docker", "--config", "/tmp/portainer-x/config", "--host",
              "tcp://h:443/api/endpoints/7/docker/", "--tls", "--tlsverify"] := rfl
    rw [h]
    simp

/-- C6 (amended): with ca_certificate set to P, the temporary directory
receives a file whose full contents equal P and the child command line
contains --tlsverify --tlscacert followed by the path of that file;
without ca_certificate, the tool writes no certificate file and appends
no TLS-verify flags — the child command line is exactly the six base
arguments followed by the passthrough arguments, so the flags appear
only if the user supplies them — and a warning is logged while the run
proceeds. -/
theorem tls_flags_amended (opts : Opts) (w : World) (f : String) (cred : Cred) (T : String)
    (hf : selectedCredentialsFile opts w = some f)
    (hc : pyDictGet (w.parsedYaml f) (credentials_name opts w) = some cred)
    (ht : get_portainer_token w.authResponse = some T) :
    (∀ P, cred.ca_certificate = some P →
      (main opts w).cacertFile = some P ∧
      List.IsInfix ["--tlsverify", "--tlscacert", w.tmpdir ++ "/cacert.pem"]
        ((main opts w).dockerArgs.getD [])) ∧
    (cred.ca_certificate = none →
      (main opts w).cacertFile = none ∧
      (main opts w).dockerArgs = some
        ([opts.dockerCmd, "--config", w.tmpdir ++ "/config", "--host",
          portainerUrl cred.host (cred.endpoint_id.getD "1"), "--tls"]
         ++ opts.arguments) ∧
      "No CA root certificate supplied. TLS verification is disabled."
        ∈ (main opts w).warnings) := by
  obtain ⟨hargs, hconf, hca, hwarn, -, -⟩ := main_launch opts w f cred T hf hc ht
  constructor
  · intro P hP
    refine ⟨by rw [hca, hP], ?_⟩
    rw [hargs]
    refine ⟨baseDockerArgs opts.dockerCmd (w.tmpdir ++ "/config") cred.host
      (cred.endpoint_id.getD "1"), opts.arguments, ?_⟩
    simp [dockerArgsFor, tlsArgs, hP]
  · intro hP
    refine ⟨by rw [hca, hP], ?_, ?_⟩
    · rw [hargs]
      simp [dockerArgsFor, tlsArgs, baseDockerArgs, hP]
    · rw [hwarn, hP]
      simp [caWarnings]

/-- A world whose credentials file holds a profile carrying a CA
certificate. -/
def wCa : World := { wBase with parsedYaml := fun _ => [("default", some cred2)] }

/-- Witness for the amended C6, exercising both the CA-present and the
CA-absent case at concrete runs. -/
theorem tls_flags_amended_witness :
    (main opts1 wCa).cacertFile = some "PEMDATA" ∧
    List.IsInfix ["--tlsverify", "--tlscacert", "/tmp/portainer-x/cacert.pem"]
      ((main opts1 wCa).dockerArgs.getD []) ∧
    (main opts1 wBase).cacertFile = none ∧
    "No CA root certificate supplied. TLS verification is disabled."
      ∈ (main opts1 wBase).warnings := by
  have h1 := (tls_flags_amended opts1 wCa "/creds.yaml" cred2 "tok" rfl rfl rfl).1
    "PEMDATA" rfl
  have h2 := (tls_flags_amended opts1 wBase "/creds.yaml" cred1 "tok" rfl rfl rfl).2 rfl
  exact ⟨h1.1, h1.2, h2.1, h2.2.2⟩

end Portainer
